import Mathlib

/-
Shallow embedding of the embree4-rs wrapper crate (philae-ael fork).

The crate is a thin safe wrapper around the Embree 4 native library.  The
native library itself is out of scope; every native call is modelled by an
explicit oracle argument carrying the values the native library would
produce (returned handles, populated records, and the device error state
observed at each poll).  Each Rust function of the crate is translated into
a Lean function over these oracles that mirrors the source control flow
statement by statement; comments cite the source location each definition
embeds.
-/

set_option autoImplicit false

namespace EmbreeWrap

/-- Error codes of the native library (RTCError in embree4_sys): NONE means
the device error state is clear. -/
inductive RTCError where
  | NONE
  | UNKNOWN
  | INVALID_ARGUMENT
  | INVALID_OPERATION
  | OUT_OF_MEMORY
  | UNSUPPORTED_CPU
  | CANCELLED
deriving DecidableEq, Repr

/-- Native handles (RTCDevice, RTCScene, RTCGeometry are opaque pointers);
modelled as natural numbers naming distinct native objects. -/
abbrev Handle := Nat

/-- A 32-bit float payload.  The wrapper never computes with floats, it only
copies them across the boundary, so an f32 is modelled by its raw bits. -/
structure F32 where
  bits : Nat
deriving DecidableEq, Repr

/-- The all-zero f32 (bit pattern 0). -/
def F32.zero : F32 := { bits := 0 }

/-- Errors produced by the wrapper.  In the source every error is an anyhow
string built either as "msg: {detail}" from an Option of RTCError (the
creation failures, which query the error state inside the bail) or as
"msg: {code}" from the code returned by the device error poll (the
device_error_or failures).  The message and the code are kept structurally. -/
inductive WrapperError where
  | creation (message : String) (detail : Option RTCError)
  | operation (message : String) (code : RTCError)
deriving DecidableEq, Repr

/-- Embeds device_error_raw (lib.rs lines 36-43).  The argument is the value
the native rtcGetDeviceError call returns for the queried device; the
function wraps it in some when it is not NONE. -/
def device_error_raw (err : RTCError) : Option RTCError :=
  if err ≠ RTCError.NONE then some err else none

/-- Embeds device_error_or (lib.rs lines 45-49): polls the device error
state (the errAfter argument is what rtcGetDeviceError returns at that
poll) and yields the ok value exactly when the state is clear, otherwise an
operation error carrying the context message and the native code. -/
def device_error_or {T : Type} (errAfter : RTCError) (ok_value : T) (message : String) :
    Except WrapperError T :=
  match device_error_raw errAfter with
  | some error => Except.error (WrapperError.operation message error)
  | none => Except.ok ok_value

/-- The Device wrapper (device.rs lines 12-14): it holds exactly one native
device handle. -/
structure Device where
  handle : Handle
deriving DecidableEq, Repr

/-- Embeds Device::try_new (device.rs lines 36-50).  nativeHandle is what
rtcNewDevice returns (none models a null handle); getDeviceErr is the
native rtcGetDeviceError oracle, indexed by the handle it is queried on
(none models querying the null device, i.e. the global error state).  On a
null handle the source calls device_error_raw(null_mut()), so the error
detail is read from the null-device slot of the oracle. -/
def Device.try_new (nativeHandle : Option Handle) (getDeviceErr : Option Handle → RTCError) :
    Except WrapperError Device :=
  match nativeHandle with
  | none =>
      Except.error
        (WrapperError.creation "Failed to create device" (device_error_raw (getDeviceErr none)))
  | some h => Except.ok { handle := h }

/-- Embeds the argument handed to rtcNewDevice by Device::try_new for a
Some(config) argument (device.rs line 40): the expression
config.as_bytes() as *const _ as _ passes a pointer to the UTF-8 bytes of
the str exactly as they are, appending nothing. -/
def tryNewConfigBytes (config : List Nat) : List Nat := config

/-- Semantics of the native side reading its const char* argument: a C
string is the bytes strictly before the first 0 byte.  When the byte
sequence contains no 0 byte the native reader does not obtain a string from
these bytes alone (it would keep reading past their end), modelled as
none. -/
def readCString : List Nat → Option (List Nat)
  | [] => none
  | b :: rest => if b = 0 then some [] else Option.map (fun s => b :: s) (readCString rest)

/-- Callback slots owned by a native device: the error-callback slot and
the memory-monitor slot (spec section 3; the native library keeps one slot
of each kind per device).  A slot holds the identity of the installed
callback, or none when the slot is deregistered. -/
structure DeviceCallbackSlots where
  errorCallback : Option Nat
  memoryMonitorCallback : Option Nat
deriving DecidableEq, Repr

/-- Callback slot owned by a native scene: the progress-monitor slot. -/
structure SceneCallbackSlots where
  progressMonitorCallback : Option Nat
deriving DecidableEq, Repr

/-- Embeds the body of Device::remove_error_callback (device.rs lines
167-171).  The body is
rtcSetDeviceMemoryMonitorFunction(self.handle, None, null_mut()), so the
native call it performs clears the memory-monitor slot and never touches
the error-callback slot. -/
def Device.remove_error_callback (s : DeviceCallbackSlots) : DeviceCallbackSlots :=
  { s with memoryMonitorCallback := none }

/-- Embeds the body of Device::remove_memory_monitor_callback (device.rs
lines 177-181): rtcSetDeviceMemoryMonitorFunction(self.handle, None,
null_mut()) clears the memory-monitor slot. -/
def Device.remove_memory_monitor_callback (s : DeviceCallbackSlots) : DeviceCallbackSlots :=
  { s with memoryMonitorCallback := none }

/-- Embeds Drop for ErrorCallBackScope (device.rs lines 201-207):
rtcSetDeviceErrorFunction(self.device, None, null_mut()) sets the device's
error-callback slot to none and touches nothing else. -/
def ErrorCallBackScope.dropEffect (s : DeviceCallbackSlots) : DeviceCallbackSlots :=
  { s with errorCallback := none }

/-- Embeds Drop for MemoryMonitorCallBackScope (device.rs lines 218-224):
rtcSetDeviceMemoryMonitorFunction(self.device, None, null_mut()) sets the
device's memory-monitor slot to none and touches nothing else. -/
def MemoryMonitorCallBackScope.dropEffect (s : DeviceCallbackSlots) : DeviceCallbackSlots :=
  { s with memoryMonitorCallback := none }

/-- Embeds Drop for SceneProgressCallbackScope (scene.rs lines 176-180):
rtcSetSceneProgressMonitorFunction(self.handle, None, null_mut()) sets the
scene's progress-monitor slot to none. -/
def SceneProgressCallbackScope.dropEffect (s : SceneCallbackSlots) : SceneCallbackSlots :=
  { s with progressMonitorCallback := none }

/-- Numeric value of a build quality (the bindgen newtype over the native
enum); its derived Default is the zero value. -/
abbrev RTCBuildQuality := Nat

/-- Numeric value of the scene flag bitset; its derived Default is the zero
value. -/
abbrev RTCSceneFlags := Nat

/-- The SceneOptions struct (scene.rs lines 182-186); its derived Default
is the zero value of both fields. -/
structure SceneOptions where
  build_quality : RTCBuildQuality
  flags : RTCSceneFlags
deriving DecidableEq, Repr

/-- The derived Default of SceneOptions: both fields at their zero value. -/
def SceneOptions.zeroDefault : SceneOptions := { build_quality := 0, flags := 0 }

/-- The Scene wrapper (scene.rs lines 8-11): a reference to its Device
(kept as the device handle) and the native scene handle. -/
structure SceneModel where
  deviceHandle : Handle
  handle : Handle
deriving DecidableEq, Repr

/-- The CommittedScene wrapper (scene.rs lines 188-191): a reference to the
Device (kept as the device handle) and a native scene handle.  It has no
Drop implementation in the source. -/
structure CommittedSceneModel where
  deviceHandle : Handle
  handle : Handle
deriving DecidableEq, Repr

/-- Embeds Scene::set_build_quality (scene.rs lines 63-68): one native
rtcSetSceneBuildQuality call followed by a device error poll (errAfter is
what that poll returns). -/
def Scene.set_build_quality (quality : RTCBuildQuality) (errAfter : RTCError) :
    Except WrapperError Unit :=
  device_error_or errAfter () "Could not set scene build quality"

/-- Embeds Scene::set_flags (scene.rs lines 77-82): one native
rtcSetSceneFlags call followed by a device error poll. -/
def Scene.set_flags (flags : RTCSceneFlags) (errAfter : RTCError) :
    Except WrapperError Unit :=
  device_error_or errAfter () "Could not set scene flags"

/-- Embeds Scene::attach_geometry (scene.rs lines 91-94): one native
rtcAttachGeometry call returning geom_id, followed by a device error
poll. -/
def Scene.attach_geometry (geom_id : Nat) (errAfter : RTCError) : Except WrapperError Nat :=
  device_error_or errAfter geom_id "Could not attach geometry"

/-- The CommittedScene value built by Scene::commit on success (scene.rs
lines 115-122): it copies the scene's device reference and the scene's own
native handle into the new wrapper; commit borrows the Scene immutably, so
the Scene stays live with the same handle. -/
def Scene.commitValue (s : SceneModel) : CommittedSceneModel :=
  { deviceHandle := s.deviceHandle, handle := s.handle }

/-- Embeds Scene::commit (scene.rs lines 111-123): one native
rtcCommitScene call followed by a device error poll wrapping the committed
view. -/
def Scene.commit (s : SceneModel) (errAfter : RTCError) :
    Except WrapperError CommittedSceneModel :=
  device_error_or errAfter (Scene.commitValue s) "Could not commit scene"

/-- Embeds Drop for Scene (scene.rs lines 163-169): rtcReleaseScene gives
the scene's native handle back to the native library.  The model keeps the
list of handles released so far. -/
def Scene.dropReleases (s : SceneModel) (released : List Handle) : List Handle :=
  s.handle :: released

/-- Native calls Scene::try_new can issue, recorded in order. -/
inductive SceneNativeCall where
  | newScene
  | setSceneBuildQuality (q : RTCBuildQuality)
  | setSceneFlags (f : RTCSceneFlags)
deriving DecidableEq, Repr

/-- The flags step of Scene::try_new (scene.rs lines 49-51): rtcSetSceneFlags
is called, and its device error poll consulted, exactly when options.flags
differs from the zero default. -/
def sceneFlagsStep (scene : SceneModel) (errF : RTCError) (options : SceneOptions)
    (callsSoFar : List SceneNativeCall) :
    (Except WrapperError SceneModel) × List SceneNativeCall :=
  if options.flags ≠ 0 then
    match Scene.set_flags options.flags errF with
    | Except.error e =>
        (Except.error e, callsSoFar ++ [SceneNativeCall.setSceneFlags options.flags])
    | Except.ok _ =>
        (Except.ok scene, callsSoFar ++ [SceneNativeCall.setSceneFlags options.flags])
  else (Except.ok scene, callsSoFar)

/-- Embeds Scene::try_new (scene.rs lines 35-54).  newSceneHandle is what
rtcNewScene returns (none models null); errAtNull is the device error state
queried in the null branch; errQ and errF are the device error states the
polls inside set_build_quality and set_flags would observe.  The second
component records the native calls issued, in order. -/
def Scene.try_new (device : Device) (newSceneHandle : Option Handle)
    (errAtNull errQ errF : RTCError) (options : SceneOptions) :
    (Except WrapperError SceneModel) × List SceneNativeCall :=
  match newSceneHandle with
  | none =>
      (Except.error
        (WrapperError.creation "Could not create scene" (device_error_raw errAtNull)),
       [SceneNativeCall.newScene])
  | some h =>
      let scene : SceneModel := { deviceHandle := device.handle, handle := h }
      if options.build_quality ≠ 0 then
        match Scene.set_build_quality options.build_quality errQ with
        | Except.error e =>
            (Except.error e,
             [SceneNativeCall.newScene, SceneNativeCall.setSceneBuildQuality options.build_quality])
        | Except.ok _ =>
            sceneFlagsStep scene errF options
              [SceneNativeCall.newScene, SceneNativeCall.setSceneBuildQuality options.build_quality]
      else
        sceneFlagsStep scene errF options [SceneNativeCall.newScene]

/-- The reserved invalid-geometry sentinel RTC_INVALID_GEOMETRY_ID
(0xFFFFFFFF in the native headers). -/
def RTC_INVALID_GEOMETRY_ID : Nat := 4294967295

/-- The RTCRay record (fixed native layout; f32 fields carried as raw
bits). -/
structure RTCRay where
  org_x : F32
  org_y : F32
  org_z : F32
  tnear : F32
  dir_x : F32
  dir_y : F32
  dir_z : F32
  time : F32
  tfar : F32
  mask : Nat
  id : Nat
  flags : Nat
deriving DecidableEq, Repr

/-- The RTCHit record. -/
structure RTCHit where
  Ng_x : F32
  Ng_y : F32
  Ng_z : F32
  u : F32
  v : F32
  primID : Nat
  geomID : Nat
  instID : Nat
deriving DecidableEq, Repr

/-- The derived Default of RTCHit: every field zero (in particular geomID is
0, not the invalid-geometry sentinel). -/
def RTCHit.zeroDefault : RTCHit :=
  { Ng_x := F32.zero, Ng_y := F32.zero, Ng_z := F32.zero, u := F32.zero, v := F32.zero,
    primID := 0, geomID := 0, instID := 0 }

/-- The RTCRayHit record handed to rtcIntersect1. -/
structure RTCRayHit where
  ray : RTCRay
  hit : RTCHit
deriving DecidableEq, Repr

/-- Embeds CommittedScene::intersect_1 (scene.rs lines 196-214).
nativeIntersect is the rtcIntersect1 oracle: it maps the ray-hit record as
passed in to the record as the native call leaves it; errAfter is the
device error state the poll right after the native call observes. -/
def CommittedScene.intersect_1 (nativeIntersect : RTCRayHit → RTCRayHit)
    (errAfter : RTCError) (ray : RTCRay) :
    Except WrapperError (Option RTCRayHit) :=
  let ray_hit : RTCRayHit := { ray := ray, hit := RTCHit.zeroDefault }
  let ray_hit := nativeIntersect ray_hit
  match device_error_or errAfter () "Could not intersect ray" with
  | Except.error e => Except.error e
  | Except.ok _ =>
      Except.ok
        (if ray_hit.hit.geomID ≠ RTC_INVALID_GEOMETRY_ID then some ray_hit else none)

/-- The RTCBounds record (lower/upper corners plus the two alignment
floats of the native layout). -/
structure RTCBounds where
  lower_x : F32
  lower_y : F32
  lower_z : F32
  align0 : F32
  upper_x : F32
  upper_y : F32
  upper_z : F32
  align1 : F32
deriving DecidableEq, Repr

/-- The derived Default of RTCBounds: every field zero. -/
def RTCBounds.zeroDefault : RTCBounds :=
  { lower_x := F32.zero, lower_y := F32.zero, lower_z := F32.zero, align0 := F32.zero,
    upper_x := F32.zero, upper_y := F32.zero, upper_z := F32.zero, align1 := F32.zero }

/-- Embeds CommittedScene::bounds (scene.rs lines 217-221): a
default-initialized RTCBounds record is passed to rtcGetSceneBounds
(nativeGetBounds maps the record as passed in to the record as the native
call leaves it), then the usual device error poll wraps the populated
record. -/
def CommittedScene.bounds (nativeGetBounds : RTCBounds → RTCBounds) (errAfter : RTCError) :
    Except WrapperError RTCBounds :=
  let b : RTCBounds := RTCBounds.zeroDefault
  let b := nativeGetBounds b
  device_error_or errAfter b "Could not get bounds"

/-- Geometry types referenced by the sources (the native enum has many more
members; only the ones the wrapper names are listed, plus one other member
so the type is not degenerate). -/
inductive RTCGeometryType where
  | SPHERE_POINT
  | TRIANGLE
deriving DecidableEq, Repr

/-- Buffer types referenced by the sources. -/
inductive RTCBufferType where
  | VERTEX
  | INDEX
deriving DecidableEq, Repr

/-- Buffer formats referenced by the sources. -/
inductive RTCFormat where
  | FLOAT4
  | FLOAT3
deriving DecidableEq, Repr

/-- The SphereGeometry wrapper (sphere.rs lines 9-11): it holds exactly one
native geometry handle. -/
structure SphereGeometryModel where
  handle : Handle
deriving DecidableEq, Repr

/-- Native calls SphereGeometry::try_new can issue, recorded in order.  The
writeVertexBuffer step is the plain memory write of the four floats into
the buffer the native library handed back. -/
inductive GeomNativeCall where
  | newGeometry (ty : RTCGeometryType)
  | setNewGeometryBuffer (bt : RTCBufferType) (slot : Nat) (fmt : RTCFormat)
      (byteStride : Nat) (itemCount : Nat)
  | writeVertexBuffer (x y z w : F32)
  | commitGeometry
deriving DecidableEq, Repr

/-- Embeds SphereGeometry::try_new (sphere.rs lines 26-61).  Oracles:
geomHandle is what rtcNewGeometry returns (none models null), errAtGeomNull
the device error queried inside the null-geometry bail, bufPtr what
rtcSetNewGeometryBuffer returns (none models null), errAtBufNull the device
error queried inside the null-buffer bail, errAfterBuf what the
device_error_or poll right after buffer creation observes, errAfterCommit
what the poll after rtcCommitGeometry observes.  The byte stride passed is
4 * size_of f32 = 16 and the item count 1, straight from the source; the
buffer write copies origin.0, origin.1, origin.2, radius.  The second
component records the native steps issued, in order. -/
def SphereGeometry.try_new (geomHandle : Option Handle) (errAtGeomNull : RTCError)
    (bufPtr : Option Nat) (errAtBufNull errAfterBuf errAfterCommit : RTCError)
    (origin : F32 × F32 × F32) (radius : F32) :
    (Except WrapperError SphereGeometryModel) × List GeomNativeCall :=
  match geomHandle with
  | none =>
      (Except.error
        (WrapperError.creation "Failed to create geometry" (device_error_raw errAtGeomNull)),
       [GeomNativeCall.newGeometry RTCGeometryType.SPHERE_POINT])
  | some g =>
      match bufPtr with
      | none =>
          (Except.error
            (WrapperError.creation "Failed to create sphere vertex buffer"
              (device_error_raw errAtBufNull)),
           [GeomNativeCall.newGeometry RTCGeometryType.SPHERE_POINT,
            GeomNativeCall.setNewGeometryBuffer RTCBufferType.VERTEX 0 RTCFormat.FLOAT4 16 1])
      | some _ =>
          match device_error_or errAfterBuf () "Failed not create sphere vertex buffer" with
          | Except.error e =>
              (Except.error e,
               [GeomNativeCall.newGeometry RTCGeometryType.SPHERE_POINT,
                GeomNativeCall.setNewGeometryBuffer RTCBufferType.VERTEX 0 RTCFormat.FLOAT4 16 1])
          | Except.ok _ =>
              match device_error_or errAfterCommit () "Failed to commit sphere geometry" with
              | Except.error e =>
                  (Except.error e,
                   [GeomNativeCall.newGeometry RTCGeometryType.SPHERE_POINT,
                    GeomNativeCall.setNewGeometryBuffer RTCBufferType.VERTEX 0 RTCFormat.FLOAT4 16 1,
                    GeomNativeCall.writeVertexBuffer origin.1 origin.2.1 origin.2.2 radius,
                    GeomNativeCall.commitGeometry])
              | Except.ok _ =>
                  (Except.ok { handle := g },
                   [GeomNativeCall.newGeometry RTCGeometryType.SPHERE_POINT,
                    GeomNativeCall.setNewGeometryBuffer RTCBufferType.VERTEX 0 RTCFormat.FLOAT4 16 1,
                    GeomNativeCall.writeVertexBuffer origin.1 origin.2.1 origin.2.2 radius,
                    GeomNativeCall.commitGeometry])

end EmbreeWrap

namespace EmbreeWrap

/-- Claim C1, counterexample: on the concrete scene wrapper with device
handle 0 and scene handle 1, the CommittedScene that Scene::commit builds
holds the very same native handle as the still-live Scene (commit only
borrows the Scene), so the handle is shared between two simultaneously
live wrapper objects; moreover, once the Scene wrapper is destroyed
(releasing the handle), the handle the CommittedScene still holds is among
the released ones, so a query through it goes through a handle whose
owning wrapper has been destroyed. -/
theorem commit_shares_live_scene_handle_cex :
    (Scene.commitValue { deviceHandle := 0, handle := 1 }).handle =
      ({ deviceHandle := 0, handle := 1 } : SceneModel).handle ∧
    (Scene.commitValue { deviceHandle := 0, handle := 1 }).handle ∈
      Scene.dropReleases { deviceHandle := 0, handle := 1 } [] := by
  decide

/-- Claim C1, amended: Scene::commit does not transfer ownership of a fresh
handle - the CommittedScene it returns copies the borrowed Scene's device
reference and native scene handle, so that handle is held by two
simultaneously live wrappers, and after the Scene is dropped (which
releases the handle) the CommittedScene still holds the released
handle. -/
theorem commit_copies_scene_handle (s : SceneModel) (released : List Handle) :
    (Scene.commitValue s).handle = s.handle ∧
    (Scene.commitValue s).deviceHandle = s.deviceHandle ∧
    (Scene.commitValue s).handle ∈ Scene.dropReleases s released := by
  refine ⟨rfl, rfl, ?_⟩
  simp [Scene.commitValue, Scene.dropReleases]

/-- Claim C2, code evaluated at the failing input: on a device whose
error-callback slot holds callback 1 and whose memory-monitor slot holds
callback 2, Device::remove_error_callback leaves the error callback
installed and clears the memory-monitor slot instead, because its body
calls rtcSetDeviceMemoryMonitorFunction rather than
rtcSetDeviceErrorFunction. -/
theorem remove_error_callback_clears_wrong_slot :
    Device.remove_error_callback
        { errorCallback := some 1, memoryMonitorCallback := some 2 } =
      { errorCallback := some 1, memoryMonitorCallback := none } := rfl

/-- Claim C3, code evaluated at the failing input: for the configuration
text with bytes 118, 101, 114 ("ver"), Device::try_new hands rtcNewDevice
exactly the str's bytes with no 0 terminator appended, and the native
C-string reader finds no terminator within those bytes - the native call
does not read a well-formed native string bounded by the caller's
configuration text. -/
theorem try_new_config_bytes_unterminated :
    tryNewConfigBytes [118, 101, 114] = [118, 101, 114] ∧
    readCString (tryNewConfigBytes [118, 101, 114]) = none := by
  exact ⟨rfl, by decide⟩

/-- Claim C6: Device::try_new returns an error exactly when rtcNewDevice
returns a null handle; in that case the error detail is the one queried
from the native null-device (global) error state, and otherwise the
returned Device wraps the non-null handle. -/
theorem device_try_new_error_iff_null (nativeHandle : Option Handle)
    (getDeviceErr : Option Handle → RTCError) :
    ((∃ e, Device.try_new nativeHandle getDeviceErr = Except.error e) ↔ nativeHandle = none) ∧
    (Device.try_new none getDeviceErr =
      Except.error (WrapperError.creation "Failed to create device"
        (device_error_raw (getDeviceErr none)))) ∧
    (∀ h, nativeHandle = some h →
      Device.try_new nativeHandle getDeviceErr = Except.ok { handle := h }) := by
  refine ⟨?_, rfl, ?_⟩
  · cases nativeHandle <;> simp [Device.try_new]
  · intro h hh
    subst hh
    rfl

/-- Witness for claim C6 at concrete inputs: a non-null handle 5 yields the
wrapped device, and a null handle with global error state UNKNOWN yields
the creation error carrying that detail. -/
theorem device_try_new_error_iff_null_witness :
    Device.try_new (some 5) (fun _ => RTCError.NONE) = Except.ok { handle := 5 } ∧
    Device.try_new none (fun _ => RTCError.UNKNOWN) =
      Except.error (WrapperError.creation "Failed to create device" (some RTCError.UNKNOWN)) :=
  ⟨(device_try_new_error_iff_null (some 5) (fun _ => RTCError.NONE)).2.2 5 rfl,
   (device_try_new_error_iff_null none (fun _ => RTCError.UNKNOWN)).2.1⟩

/-- Claim C4: CommittedScene::intersect_1 returns an error exactly when the
device error state polled right after the native call is not clear,
independent of the hit or no-hit outcome; with a clear error state it
returns none exactly when the native call left the geometry identifier of
the hit record equal to the reserved invalid-geometry sentinel (a normal
result, not an error), and some of the populated record exactly
otherwise. -/
theorem intersect_1_spec (nativeIntersect : RTCRayHit → RTCRayHit) (errAfter : RTCError)
    (ray : RTCRay) :
    ((∃ e, CommittedScene.intersect_1 nativeIntersect errAfter ray = Except.error e) ↔
      errAfter ≠ RTCError.NONE) ∧
    (CommittedScene.intersect_1 nativeIntersect errAfter ray = Except.ok none ↔
      errAfter = RTCError.NONE ∧
        (nativeIntersect { ray := ray, hit := RTCHit.zeroDefault }).hit.geomID =
          RTC_INVALID_GEOMETRY_ID) ∧
    (CommittedScene.intersect_1 nativeIntersect errAfter ray =
        Except.ok (some (nativeIntersect { ray := ray, hit := RTCHit.zeroDefault })) ↔
      errAfter = RTCError.NONE ∧
        (nativeIntersect { ray := ray, hit := RTCHit.zeroDefault }).hit.geomID ≠
          RTC_INVALID_GEOMETRY_ID) := by
  by_cases he : errAfter = RTCError.NONE
  · by_cases hg : (nativeIntersect { ray := ray, hit := RTCHit.zeroDefault }).hit.geomID =
        RTC_INVALID_GEOMETRY_ID
    · simp [CommittedScene.intersect_1, device_error_or, device_error_raw, he, hg]
    · simp [CommittedScene.intersect_1, device_error_or, device_error_raw, he, hg]
  · simp [CommittedScene.intersect_1, device_error_or, device_error_raw, he]

/-- Witness for claim C4 at concrete inputs: a native call that writes the
invalid-geometry sentinel into the hit's geometry identifier, with a clear
error poll, yields the normal no-intersection result none. -/
theorem intersect_1_spec_witness :
    CommittedScene.intersect_1
        (fun rh => { rh with hit := { rh.hit with geomID := RTC_INVALID_GEOMETRY_ID } })
        RTCError.NONE
        { org_x := F32.zero, org_y := F32.zero, org_z := F32.zero, tnear := F32.zero,
          dir_x := F32.zero, dir_y := F32.zero, dir_z := F32.zero, time := F32.zero,
          tfar := F32.zero, mask := 0, id := 0, flags := 0 } = Except.ok none :=
  (intersect_1_spec
      (fun rh => { rh with hit := { rh.hit with geomID := RTC_INVALID_GEOMETRY_ID } })
      RTCError.NONE
      { org_x := F32.zero, org_y := F32.zero, org_z := F32.zero, tnear := F32.zero,
        dir_x := F32.zero, dir_y := F32.zero, dir_z := F32.zero, time := F32.zero,
        tfar := F32.zero, mask := 0, id := 0, flags := 0 }).2.1.mpr ⟨rfl, rfl⟩

/-- Claim C5: for a successful scene creation, Scene::try_new issues the
native set-build-quality call exactly when options.build_quality differs
from the zero-value default, issues the native set-flags call exactly when
options.flags differs from the zero-value default (once the build-quality
step has not failed first), and each application is independently checked
against the device error state: a non-clear state at the quality poll
yields the quality failure, a non-clear state at the flags poll yields the
flags failure, and with both relevant polls clear the scene is returned. -/
theorem scene_try_new_applies_nondefault (device : Device) (h : Handle)
    (errAtNull errQ errF : RTCError) (options : SceneOptions) :
    (SceneNativeCall.setSceneBuildQuality options.build_quality ∈
        (Scene.try_new device (some h) errAtNull errQ errF options).2 ↔
      options.build_quality ≠ 0) ∧
    ((options.build_quality = 0 ∨ errQ = RTCError.NONE) →
      (SceneNativeCall.setSceneFlags options.flags ∈
          (Scene.try_new device (some h) errAtNull errQ errF options).2 ↔
        options.flags ≠ 0)) ∧
    (options.build_quality ≠ 0 → errQ ≠ RTCError.NONE →
      (Scene.try_new device (some h) errAtNull errQ errF options).1 =
        Except.error (WrapperError.operation "Could not set scene build quality" errQ)) ∧
    ((options.build_quality = 0 ∨ errQ = RTCError.NONE) → options.flags ≠ 0 →
      errF ≠ RTCError.NONE →
      (Scene.try_new device (some h) errAtNull errQ errF options).1 =
        Except.error (WrapperError.operation "Could not set scene flags" errF)) ∧
    ((options.build_quality = 0 ∨ errQ = RTCError.NONE) →
      (options.flags = 0 ∨ errF = RTCError.NONE) →
      (Scene.try_new device (some h) errAtNull errQ errF options).1 =
        Except.ok { deviceHandle := device.handle, handle := h }) := by
  by_cases hq : options.build_quality = 0 <;> by_cases hf : options.flags = 0 <;>
    by_cases heQ : errQ = RTCError.NONE <;> by_cases heF : errF = RTCError.NONE <;>
      simp [Scene.try_new, sceneFlagsStep, Scene.set_build_quality, Scene.set_flags,
        device_error_or, device_error_raw, hq, hf, heQ, heF]

/-- Witness for claim C5 at concrete inputs: with build quality 2, flags 3
and clear error polls, both native applications are issued and the scene
is returned; with the same options and a quality poll reporting
INVALID_ARGUMENT the result is the build-quality failure. -/
theorem scene_try_new_applies_nondefault_witness :
    SceneNativeCall.setSceneBuildQuality 2 ∈
      (Scene.try_new { handle := 0 } (some 1) RTCError.NONE RTCError.NONE RTCError.NONE
        { build_quality := 2, flags := 3 }).2 ∧
    SceneNativeCall.setSceneFlags 3 ∈
      (Scene.try_new { handle := 0 } (some 1) RTCError.NONE RTCError.NONE RTCError.NONE
        { build_quality := 2, flags := 3 }).2 ∧
    (Scene.try_new { handle := 0 } (some 1) RTCError.NONE RTCError.NONE RTCError.NONE
        { build_quality := 2, flags := 3 }).1 =
      Except.ok { deviceHandle := 0, handle := 1 } ∧
    (Scene.try_new { handle := 0 } (some 1) RTCError.NONE RTCError.INVALID_ARGUMENT
        RTCError.NONE { build_quality := 2, flags := 3 }).1 =
      Except.error
        (WrapperError.operation "Could not set scene build quality" RTCError.INVALID_ARGUMENT) :=
  ⟨(scene_try_new_applies_nondefault { handle := 0 } 1 RTCError.NONE RTCError.NONE
      RTCError.NONE { build_quality := 2, flags := 3 }).1.mpr (by decide),
   ((scene_try_new_applies_nondefault { handle := 0 } 1 RTCError.NONE RTCError.NONE
      RTCError.NONE { build_quality := 2, flags := 3 }).2.1 (Or.inr rfl)).mpr (by decide),
   (scene_try_new_applies_nondefault { handle := 0 } 1 RTCError.NONE RTCError.NONE
      RTCError.NONE { build_quality := 2, flags := 3 }).2.2.2.2 (Or.inr rfl) (Or.inr rfl),
   (scene_try_new_applies_nondefault { handle := 0 } 1 RTCError.NONE
      RTCError.INVALID_ARGUMENT RTCError.NONE { build_quality := 2, flags := 3 }).2.2.1
     (by decide) (by decide)⟩

/-- Claim C7: SphereGeometry::try_new succeeds exactly when no native step
returned null and both device error polls were clear, in which case the
native steps issued are, in order: creation of a point-type (SPHERE_POINT)
geometry, allocation of a single-element FLOAT4 vertex buffer of 4 floats
(byte stride 16, item count 1) inside the native library's memory, the
write of x, y, z, radius into that buffer, and the geometry commit; each
step is checked immediately: after a null geometry no further step is
issued, and after a null buffer or a non-clear buffer poll no further step
is issued. -/
theorem sphere_try_new_spec (geomHandle : Option Handle) (errAtGeomNull : RTCError)
    (bufPtr : Option Nat) (errAtBufNull errAfterBuf errAfterCommit : RTCError)
    (origin : F32 × F32 × F32) (radius : F32) :
    ((∃ g, (SphereGeometry.try_new geomHandle errAtGeomNull bufPtr errAtBufNull errAfterBuf
        errAfterCommit origin radius).1 = Except.ok g) ↔
      geomHandle ≠ none ∧ bufPtr ≠ none ∧ errAfterBuf = RTCError.NONE ∧
        errAfterCommit = RTCError.NONE) ∧
    (geomHandle ≠ none → bufPtr ≠ none → errAfterBuf = RTCError.NONE →
      (SphereGeometry.try_new geomHandle errAtGeomNull bufPtr errAtBufNull errAfterBuf
          errAfterCommit origin radius).2 =
        [GeomNativeCall.newGeometry RTCGeometryType.SPHERE_POINT,
         GeomNativeCall.setNewGeometryBuffer RTCBufferType.VERTEX 0 RTCFormat.FLOAT4 16 1,
         GeomNativeCall.writeVertexBuffer origin.1 origin.2.1 origin.2.2 radius,
         GeomNativeCall.commitGeometry]) ∧
    (geomHandle = none →
      (SphereGeometry.try_new geomHandle errAtGeomNull bufPtr errAtBufNull errAfterBuf
          errAfterCommit origin radius).2 =
        [GeomNativeCall.newGeometry RTCGeometryType.SPHERE_POINT]) ∧
    (geomHandle ≠ none → bufPtr = none ∨ errAfterBuf ≠ RTCError.NONE →
      (SphereGeometry.try_new geomHandle errAtGeomNull bufPtr errAtBufNull errAfterBuf
          errAfterCommit origin radius).2 =
        [GeomNativeCall.newGeometry RTCGeometryType.SPHERE_POINT,
         GeomNativeCall.setNewGeometryBuffer RTCBufferType.VERTEX 0 RTCFormat.FLOAT4 16 1]) := by
  cases geomHandle <;> cases bufPtr <;>
    by_cases heB : errAfterBuf = RTCError.NONE <;>
      by_cases heC : errAfterCommit = RTCError.NONE <;>
        simp [SphereGeometry.try_new, device_error_or, device_error_raw, heB, heC]

/-- Witness for claim C7 at concrete inputs: with geometry handle 4, a
non-null buffer and clear polls, the wrapper succeeds and issues the four
steps in order for origin bits (1, 2, 3) and radius bits 5; with a null
buffer the trace stops after the buffer-allocation step. -/
theorem sphere_try_new_spec_witness :
    (∃ g, (SphereGeometry.try_new (some 4) RTCError.NONE (some 9) RTCError.NONE RTCError.NONE
        RTCError.NONE ({ bits := 1 }, { bits := 2 }, { bits := 3 }) { bits := 5 }).1 =
      Except.ok g) ∧
    (SphereGeometry.try_new (some 4) RTCError.NONE (some 9) RTCError.NONE RTCError.NONE
        RTCError.NONE ({ bits := 1 }, { bits := 2 }, { bits := 3 }) { bits := 5 }).2 =
      [GeomNativeCall.newGeometry RTCGeometryType.SPHERE_POINT,
       GeomNativeCall.setNewGeometryBuffer RTCBufferType.VERTEX 0 RTCFormat.FLOAT4 16 1,
       GeomNativeCall.writeVertexBuffer { bits := 1 } { bits := 2 } { bits := 3 } { bits := 5 },
       GeomNativeCall.commitGeometry] ∧
    (SphereGeometry.try_new (some 4) RTCError.NONE none RTCError.OUT_OF_MEMORY RTCError.NONE
        RTCError.NONE ({ bits := 1 }, { bits := 2 }, { bits := 3 }) { bits := 5 }).2 =
      [GeomNativeCall.newGeometry RTCGeometryType.SPHERE_POINT,
       GeomNativeCall.setNewGeometryBuffer RTCBufferType.VERTEX 0 RTCFormat.FLOAT4 16 1] :=
  ⟨(sphere_try_new_spec (some 4) RTCError.NONE (some 9) RTCError.NONE RTCError.NONE
      RTCError.NONE ({ bits := 1 }, { bits := 2 }, { bits := 3 }) { bits := 5 }).1.mpr
     (by decide),
   (sphere_try_new_spec (some 4) RTCError.NONE (some 9) RTCError.NONE RTCError.NONE
      RTCError.NONE ({ bits := 1 }, { bits := 2 }, { bits := 3 }) { bits := 5 }).2.1
     (by decide) (by decide) rfl,
   (sphere_try_new_spec (some 4) RTCError.NONE none RTCError.OUT_OF_MEMORY RTCError.NONE
      RTCError.NONE ({ bits := 1 }, { bits := 2 }, { bits := 3 }) { bits := 5 }).2.2.2
     (by decide) (Or.inl rfl)⟩

/-- Claim C8: each of set_build_quality, set_flags, attach_geometry and
commit polls the device error state right after its single native call and
returns ok with the operation's value exactly when that state is clear;
otherwise it returns an operation error carrying the native error code and
the contextual message naming the operation that failed. -/
theorem scene_ops_error_check (errAfter : RTCError) (q : RTCBuildQuality)
    (f : RTCSceneFlags) (gid : Nat) (s : SceneModel) :
    (errAfter = RTCError.NONE →
      Scene.set_build_quality q errAfter = Except.ok () ∧
      Scene.set_flags f errAfter = Except.ok () ∧
      Scene.attach_geometry gid errAfter = Except.ok gid ∧
      Scene.commit s errAfter = Except.ok (Scene.commitValue s)) ∧
    (errAfter ≠ RTCError.NONE →
      Scene.set_build_quality q errAfter =
        Except.error (WrapperError.operation "Could not set scene build quality" errAfter) ∧
      Scene.set_flags f errAfter =
        Except.error (WrapperError.operation "Could not set scene flags" errAfter) ∧
      Scene.attach_geometry gid errAfter =
        Except.error (WrapperError.operation "Could not attach geometry" errAfter) ∧
      Scene.commit s errAfter =
        Except.error (WrapperError.operation "Could not commit scene" errAfter)) := by
  constructor <;> intro he <;>
    simp [Scene.set_build_quality, Scene.set_flags, Scene.attach_geometry, Scene.commit,
      device_error_or, device_error_raw, he]

/-- Witness for claim C8 at concrete inputs: with a clear error state the
four operations succeed with their values; with error state OUT_OF_MEMORY
attach_geometry reports the attach failure with that code. -/
theorem scene_ops_error_check_witness :
    Scene.set_build_quality 2 RTCError.NONE = Except.ok () ∧
    Scene.commit { deviceHandle := 0, handle := 1 } RTCError.NONE =
      Except.ok { deviceHandle := 0, handle := 1 } ∧
    Scene.attach_geometry 7 RTCError.OUT_OF_MEMORY =
      Except.error (WrapperError.operation "Could not attach geometry" RTCError.OUT_OF_MEMORY) :=
  ⟨((scene_ops_error_check RTCError.NONE 2 0 7 { deviceHandle := 0, handle := 1 }).1 rfl).1,
   ((scene_ops_error_check RTCError.NONE 2 0 7 { deviceHandle := 0, handle := 1 }).1 rfl).2.2.2,
   ((scene_ops_error_check RTCError.OUT_OF_MEMORY 2 0 7
      { deviceHandle := 0, handle := 1 }).2 (by decide)).2.2.1⟩

/-- Claim C9: dropping an ErrorCallBackScope, a MemoryMonitorCallBackScope
or a SceneProgressCallbackScope sets the corresponding native callback
slot of its device or scene to none - whatever callback was installed, so
no previously installed callback is restored - and leaves the other slot
of the device unchanged. -/
theorem scope_drop_deregisters (d : DeviceCallbackSlots) (s : SceneCallbackSlots) :
    (ErrorCallBackScope.dropEffect d).errorCallback = none ∧
    (ErrorCallBackScope.dropEffect d).memoryMonitorCallback = d.memoryMonitorCallback ∧
    (MemoryMonitorCallBackScope.dropEffect d).memoryMonitorCallback = none ∧
    (MemoryMonitorCallBackScope.dropEffect d).errorCallback = d.errorCallback ∧
    (SceneProgressCallbackScope.dropEffect s).progressMonitorCallback = none :=
  ⟨rfl, rfl, rfl, rfl, rfl⟩

/-- Claim C10: CommittedScene::bounds passes the zero-initialized bounds
record to the native library and returns the record the native call
populated exactly when the device error state polled right after the call
is clear, an operation error carrying the native code otherwise. -/
theorem bounds_spec (nativeGetBounds : RTCBounds → RTCBounds) (errAfter : RTCError) :
    (errAfter = RTCError.NONE →
      CommittedScene.bounds nativeGetBounds errAfter =
        Except.ok (nativeGetBounds RTCBounds.zeroDefault)) ∧
    (errAfter ≠ RTCError.NONE →
      CommittedScene.bounds nativeGetBounds errAfter =
        Except.error (WrapperError.operation "Could not get bounds" errAfter)) := by
  constructor <;> intro he <;>
    simp [CommittedScene.bounds, device_error_or, device_error_raw, he]

/-- Witness for claim C10 at concrete inputs: with a clear error state the
populated record (here the filler writing bit pattern 3 into upper_x) is
returned, and with error state CANCELLED the bounds failure carries that
code. -/
theorem bounds_spec_witness :
    CommittedScene.bounds (fun b => { b with upper_x := { bits := 3 } }) RTCError.NONE =
      Except.ok { RTCBounds.zeroDefault with upper_x := { bits := 3 } } ∧
    CommittedScene.bounds (fun b => b) RTCError.CANCELLED =
      Except.error (WrapperError.operation "Could not get bounds" RTCError.CANCELLED) :=
  ⟨(bounds_spec (fun b => { b with upper_x := { bits := 3 } }) RTCError.NONE).1 rfl,
   (bounds_spec (fun b => b) RTCError.CANCELLED).2 (by decide)⟩

end EmbreeWrap
